import Mathlib

/-!
Shallow embedding of the Doc-Chat backend (`src/app.py`): a Flask app with three
routes (`/upload`, `/process`, `/ask`), format-dispatching text extraction
(PDF, DOCX, CSV, Excel), a process-global document store consisting of the two
globals `uploaded_filename` and `document_text`, and a GPT-4 query helper.

Python strings are modelled as Lean `String`, with Python's string operations
(`endswith`, `strip`, `split`, slicing, `lower`) defined over the underlying
character list.  Python exceptions are modelled with `Except String`; external
library calls (PyMuPDF, python-docx, pandas, werkzeug's `secure_filename`,
the Azure OpenAI client, `file.save`) are oracles passed as parameters, since
their behaviour lives outside this repository.  Flask responses are modelled
as a status code plus the list of JSON body fields in source order.
-/

namespace DocChat

/-- Whitespace test used by Python's `str.strip()` and `str.split()`
(ASCII whitespace characters). -/
def pyIsSpace (c : Char) : Bool :=
  c = ' ' || c = '\t' || c = '\n' || c = '\r' || c = '\x0b' || c = '\x0c'

/-- Python `s.strip()`: remove leading and trailing whitespace. -/
def pyStrip (s : String) : String :=
  String.mk (((s.data.dropWhile pyIsSpace).reverse.dropWhile pyIsSpace).reverse)

/-- Python `s.split()` with no argument: maximal runs of non-whitespace
characters, with leading/trailing/repeated whitespace ignored. -/
def pySplit (s : String) : List String :=
  let step : Char → (List Char × List String) → (List Char × List String) :=
    fun c acc =>
      if pyIsSpace c then
        match acc with
        | ([], toks) => ([], toks)
        | (cur, toks) => ([], String.mk cur :: toks)
      else (c :: acc.1, acc.2)
  match s.data.foldr step ([], []) with
  | ([], toks) => toks
  | (cur, toks) => String.mk cur :: toks

/-- Python `s[:n]`: the first `n` characters of `s` (all of `s` if shorter). -/
def pySlice (s : String) (n : Nat) : String :=
  String.mk (s.data.take n)

/-- Python `s.endswith(suf)`: `suf` is a suffix of `s`, compared
character-by-character (case-sensitive). -/
def pyEndswith (s suf : String) : Bool :=
  suf.data.isSuffixOf s.data

/-- Python `s.lower()` restricted to ASCII letters (enough for file
extensions). -/
def pyLower (s : String) : String :=
  String.mk (s.data.map Char.toLower)

/-- Stand-in for a pandas `DataFrame` produced by `pd.read_csv` /
`pd.read_excel`: header row plus data rows.  Its internal structure is never
inspected by the code under verification, which only passes it to
`to_string(index=False)`. -/
def Table : Type := List (List String)

/-- Oracles for the external libraries called by the extractors:
`pdf p` is the outcome of opening `p` with PyMuPDF and reading every page's
text layer in order (`Except.error` = a raised exception); `docx p` is the
outcome of reading every paragraph's text with python-docx; `csv p` / `excel p`
are the outcomes of `pd.read_csv(p, encoding="utf-8")` / `pd.read_excel(p)`;
`to_string_noindex df` is pandas' `df.to_string(index=False)`, the
whitespace-aligned textual rendering of the table without the row index
column. -/
structure Ext where
  pdf : String → Except String (List String)
  docx : String → Except String (List String)
  csv : String → Except String Table
  excel : String → Except String Table
  to_string_noindex : Table → String

/-- The two process-global variables `uploaded_filename` and `document_text`
of `app.py` (the Document Store).  Initial state: both empty. -/
structure DocStore where
  uploaded_filename : String
  document_text : String
deriving DecidableEq, Repr

/-- Initial global state of the process. -/
def initStore : DocStore := ⟨"", ""⟩

/-- An HTTP response: status code plus the JSON body's fields in source
order (`jsonify` with no explicit status is 200). -/
structure Resp where
  status : Nat
  body : List (String × String)
deriving DecidableEq, Repr

/-- Model of `extract_text_from_pdf`: `text = ""`, then
`text += page.get_text("text") + "\n"` for each page; exceptions from
PyMuPDF propagate to the caller. -/
def extract_text_from_pdf (env : Ext) (file_path : String) : Except String String :=
  match env.pdf file_path with
  | .error e => .error e
  | .ok pages => .ok (String.join (pages.map (fun page => page ++ "\n")))

/-- Model of `extract_text_from_docx`:
`"\n".join(para.text for para in doc.paragraphs)`; exceptions from
python-docx propagate to the caller. -/
def extract_text_from_docx (env : Ext) (file_path : String) : Except String String :=
  match env.docx file_path with
  | .error e => .error e
  | .ok paras => .ok (String.intercalate "\n" paras)

/-- Model of `extract_text_from_csv`: `pd.read_csv` then
`df.to_string(index=False)` inside `try`; any exception is converted to the
string `"Error reading CSV: " + str(e)` — this function never raises. -/
def extract_text_from_csv (env : Ext) (file_path : String) : String :=
  match env.csv file_path with
  | .ok df => env.to_string_noindex df
  | .error e => "Error reading CSV: " ++ e

/-- Model of `extract_text_from_excel`: `pd.read_excel` then
`df.to_string(index=False)` inside `try`; any exception is converted to the
string `"Error reading Excel file: " + str(e)` — this function never
raises. -/
def extract_text_from_excel (env : Ext) (file_path : String) : String :=
  match env.excel file_path with
  | .ok df => env.to_string_noindex df
  | .error e => "Error reading Excel file: " ++ e

/-- Model of `extract_text`: dispatch on the file path's extension with
Python's case-sensitive `str.endswith`, in source order; unsupported
extensions yield `""`. -/
def extract_text (env : Ext) (file_path : String) : Except String String :=
  if pyEndswith file_path ".pdf" then extract_text_from_pdf env file_path
  else if pyEndswith file_path ".docx" then extract_text_from_docx env file_path
  else if pyEndswith file_path ".csv" then .ok (extract_text_from_csv env file_path)
  else if pyEndswith file_path ".xlsx" || pyEndswith file_path ".xls" then
    .ok (extract_text_from_excel env file_path)
  else .ok ""

/-- The `/upload` handler `upload_file`.  `save` models `file.save(file_path)`
(may raise), `sanitize` models werkzeug's `secure_filename`, and `req` is the
upload request: `none` when `"file" not in request.files`, otherwise
`some file.filename`.  Mirrors the source's statement order: inside the `try`,
`file.save` runs first, then `uploaded_filename = filename`, then
`document_text = extract_text(file_path)`, and only then the
`document_text.strip()` test; `except Exception` returns 500 with the state
left as the statements already executed made it. -/
def upload_file (env : Ext) (save : String → Except String Unit)
    (sanitize : String → String) (req : Option String) (st : DocStore) :
    Resp × DocStore :=
  match req with
  | none => (⟨400, [("message", "No file uploaded")]⟩, st)
  | some rawName =>
    if rawName = "" then (⟨400, [("message", "No selected file")]⟩, st)
    else
      let filename := sanitize rawName
      let file_path := "upload/" ++ filename
      match save file_path with
      | .error e => (⟨500, [("message", "File upload failed"), ("error", e)]⟩, st)
      | .ok _ =>
        let st1 : DocStore := { st with uploaded_filename := filename }
        match extract_text env file_path with
        | .error e => (⟨500, [("message", "File upload failed"), ("error", e)]⟩, st1)
        | .ok txt =>
          let st2 : DocStore := { st1 with document_text := txt }
          if pyStrip txt = "" then
            (⟨400, [("message", "File uploaded but no readable content found")]⟩, st2)
          else
            (⟨200, [("message", "File uploaded successfully"),
                    ("redirect", "process.html")]⟩, st2)

/-- The `/process` handler `process_file`: 400 when `document_text` is falsy
(empty), else word count of the full stored text via `document_text.split()`
and the first 500 characters as `content`.  The store is returned unchanged
(the handler only reads the global). -/
def process_file (st : DocStore) : Resp × DocStore :=
  if st.document_text = "" then (⟨400, [("message", "No document analyzed yet")]⟩, st)
  else
    let word_count := (pySplit st.document_text).length
    let analysis_result := "Analysis successful! Word count: " ++ toString word_count
    (⟨200, [("message", analysis_result),
            ("content", pySlice st.document_text 500)]⟩, st)

/-- The messages list built by `query_gpt4`: the fixed system instruction and
the user message `f"Document: {context[:2000]}...\n\nQuestion: {question}"`. -/
def gpt_messages (context question : String) : List (String × String) :=
  [("system",
    "You are Financial assistant that answers questions based on the uploaded document."),
   ("user", "Document: " ++ pySlice context 2000 ++ "...\n\nQuestion: " ++ question)]

/-- Model of `query_gpt4`: build the messages, issue one completion call
(`complete` models the Azure OpenAI client construction plus
`chat.completions.create` and the `choices[0].message.content` access —
`Except.error` is any exception raised anywhere in the `try` block); any
failure is converted to `"Error querying GPT-4: " + str(e)` — never raises. -/
def query_gpt4 (complete : List (String × String) → Except String String)
    (question context : String) : String :=
  match complete (gpt_messages context question) with
  | .ok ans => ans
  | .error e => "Error querying GPT-4: " ++ e

/-- The `/ask` handler `ask_question`: 400 when `document_text` is empty;
`question = data.get("question", "").strip()` (`req` is the JSON body's
`question` field when present); 400 when the stripped question is falsy;
otherwise delegate to the QA function `qa` (instantiated with `query_gpt4`)
and return `{question, answer}` with implicit status 200.  The store is
returned unchanged (the handler only reads the global). -/
def ask_question (qa : String → String → String) (req : Option String)
    (st : DocStore) : Resp × DocStore :=
  if st.document_text = "" then (⟨400, [("message", "No document analyzed yet")]⟩, st)
  else
    let question := pyStrip (req.getD "")
    if question = "" then (⟨400, [("message", "Please ask a question")]⟩, st)
    else (⟨200, [("question", question),
                 ("answer", qa question st.document_text)]⟩, st)

/-! Helper lemmas about the Python string primitives. -/

/-- Boolean `endswith` agrees with the list suffix relation. -/
theorem pyEndswith_iff {s suf : String} : pyEndswith s suf = true ↔ suf.data <:+ s.data := by
  simp [pyEndswith]

/-- A string whose character list does not end with `x.data` does not
`endswith x`. -/
theorem pyEndswith_eq_false {p x : String} (h : ¬ x.data <:+ p.data) :
    pyEndswith p x = false := by
  cases hpe : pyEndswith p x with
  | false => rfl
  | true => exact absurd (pyEndswith_iff.mp hpe) h

/-- Two candidate extensions that are not suffixes of one another cannot both
match: a path ending in `b` does not end in `a`. -/
theorem not_endswith {p a b : String} (h : pyEndswith p b = true)
    (hab : ¬ a.data <:+ b.data) (hba : ¬ b.data <:+ a.data) :
    pyEndswith p a = false := by
  apply pyEndswith_eq_false
  intro ha
  rcases List.suffix_or_suffix_of_suffix ha (pyEndswith_iff.mp h) with h1 | h1
  · exact hab h1
  · exact hba h1

/-- Appending to a non-empty string yields a non-empty string. -/
theorem ne_empty_append {s : String} (t : String) (h : s.data ≠ []) : s ++ t ≠ "" := by
  intro hh
  have h2 : s.data ++ t.data = [] := congrArg String.data hh
  exact h (List.append_eq_nil.mp h2).1

/-- A string containing a non-whitespace character does not strip to the
empty string (so it passes the `document_text.strip()` truthiness test). -/
theorem pyStrip_ne_empty {s : String} {c : Char} (hc : c ∈ s.data)
    (hsp : pyIsSpace c = false) : pyStrip s ≠ "" := by
  intro h
  have h2 : (((s.data.dropWhile pyIsSpace).reverse.dropWhile pyIsSpace).reverse) = [] :=
    congrArg String.data h
  rw [List.reverse_eq_nil_iff, List.dropWhile_eq_nil_iff] at h2
  have hc2 : c ∈ s.data.dropWhile pyIsSpace := by
    have hsplit := List.takeWhile_append_dropWhile (p := pyIsSpace) (l := s.data)
    rw [← hsplit] at hc
    rcases List.mem_append.mp hc with h3 | h3
    · exact absurd (List.mem_takeWhile_imp h3) (by simp [hsp])
    · exact h3
  have := h2 c (List.mem_reverse.mpr hc2)
  simp [hsp] at this

/-- Case variants of a supported extension never match the case-sensitive
dispatch: if `s` lowercases to the extension `e` but differs from it, and the
candidate extension `ex` is lowercase-fixed and comparable to `e` only when
equal to it, then a path ending in `s` cannot also end in `ex`. -/
theorem lower_variant_no_match {P : List Char} {s e : String} (ex : String)
    (hlow : pyLower s = e) (hne : s ≠ e)
    (hfix : ex.data.map Char.toLower = ex.data)
    (himp : ex.data <:+ e.data → ex = e)
    (himp2 : e.data <:+ ex.data → e = ex)
    (hs : s.data <:+ P) : ¬ ex.data <:+ P := by
  intro hp
  have hmap : s.data.map Char.toLower = e.data := congrArg String.data hlow
  have hlen : s.data.length = e.data.length := by
    rw [← hmap, List.length_map]
  rcases List.suffix_or_suffix_of_suffix hp hs with h1 | h1
  · have h2 : ex.data <:+ e.data := by
      have h3 := List.IsSuffix.map Char.toLower h1
      rwa [hfix, hmap] at h3
    have hee := himp h2
    have h4 : ex.data = s.data :=
      List.IsSuffix.eq_of_length h1 (by rw [hee, ← hlen])
    have h5 : s.data = e.data := by rw [← h4, hee]
    exact hne (String.ext h5)
  · have h2 : e.data <:+ ex.data := by
      have h3 := List.IsSuffix.map Char.toLower h1
      rwa [hmap, hfix] at h3
    have hee := himp2 h2
    have h4 : s.data = ex.data :=
      List.IsSuffix.eq_of_length h1 (by rw [← hee, ← hlen])
    have h5 : s.data = e.data := by rw [h4, ← hee]
    exact hne (String.ext h5)

/-! Shared evaluation and inversion lemmas for the upload handler. -/

/-- When the save succeeds, extraction returns `txt`, and `txt` strips to
something non-empty, the upload handler returns 200 and stores
`(sanitize name, txt)` — from any prior store state. -/
theorem upload_ok_eval (env : Ext) (save : String → Except String Unit)
    (sanitize : String → String) (name txt : String) (st : DocStore)
    (hname : name ≠ "") (hsave : save ("upload/" ++ sanitize name) = .ok ())
    (hext : extract_text env ("upload/" ++ sanitize name) = .ok txt)
    (htxt : pyStrip txt ≠ "") :
    upload_file env save sanitize (some name) st =
      (⟨200, [("message", "File uploaded successfully"), ("redirect", "process.html")]⟩,
       ⟨sanitize name, txt⟩) := by
  simp [upload_file, hname, hsave, hext, htxt]

/-- Inversion: a 200 response from the upload handler can only come from the
success branch, so it determines the request, oracle outcomes, and the new
store. -/
theorem upload_200_inv (env : Ext) (save : String → Except String Unit)
    (sanitize : String → String) (req : Option String) (st : DocStore)
    (h200 : (upload_file env save sanitize req st).1.status = 200) :
    ∃ name txt, req = some name ∧ name ≠ "" ∧
      save ("upload/" ++ sanitize name) = .ok () ∧
      extract_text env ("upload/" ++ sanitize name) = .ok txt ∧
      pyStrip txt ≠ "" ∧
      (upload_file env save sanitize req st).2 = ⟨sanitize name, txt⟩ := by
  cases req with
  | none => simp [upload_file] at h200
  | some name =>
    by_cases hname : name = ""
    · subst hname
      simp [upload_file] at h200
    · cases hsave : save ("upload/" ++ sanitize name) with
      | error e => simp [upload_file, hname, hsave] at h200
      | ok u =>
        cases u
        cases hext : extract_text env ("upload/" ++ sanitize name) with
        | error e => simp [upload_file, hname, hsave, hext] at h200
        | ok txt =>
          by_cases ht : pyStrip txt = ""
          · simp [upload_file, hname, hsave, hext, ht] at h200
          · exact ⟨name, txt, rfl, hname, hsave, hext, ht, by
              simp [upload_file, hname, hsave, hext, ht]⟩

/-! Concrete oracle assignments used to evaluate the handlers on specific
inputs: a PDF whose single page has an empty text layer (extraction yields
the whitespace-only string of one newline), a DOCX with no paragraphs,
tabular parses that raise, and fixed renderings/answers. -/

/-- Concrete extraction oracles: PDF with one empty page, empty DOCX,
CSV parse raising `boom`, Excel parse raising `excel boom`. -/
def envA : Ext :=
  ⟨fun _ => .ok [""], fun _ => .ok [], fun _ => .error "boom",
   fun _ => .error "excel boom", fun _ => "table"⟩

/-- Concrete extraction oracles for a second upload: CSV parse raising
`second`. -/
def envB : Ext :=
  ⟨fun _ => .ok [""], fun _ => .ok [], fun _ => .error "second",
   fun _ => .error "excel second", fun _ => "table2"⟩

/-- Concrete `file.save` oracle that always succeeds. -/
def saveA : String → Except String Unit := fun _ => .ok ()

/-- Concrete QA function. -/
def qaA : String → String → String := fun q c => "answer to " ++ q ++ " from " ++ c

/-- A second, different concrete QA function (used to show the QA function is
not consulted on the 400 paths). -/
def qaB : String → String → String := fun _ _ => "other"

/-- Concrete completion oracle that always fails with a network error. -/
def completeFail : List (String × String) → Except String String :=
  fun _ => .error "network down"

/-- C1 (counterexample): the claim that every non-200 upload response leaves
the Document Store unchanged is false.  Uploading `a.txt` (unsupported
extension, extraction yields `""`) over the prior store
`("old.pdf", "old text")` returns 400 yet replaces the store with
`("a.txt", "")`, because `uploaded_filename` and `document_text` are assigned
before the `strip()` check. -/
theorem upload_400_mutates_store :
    (upload_file envA saveA id (some "a.txt") ⟨"old.pdf", "old text"⟩).1.status = 400 ∧
    (upload_file envA saveA id (some "a.txt") ⟨"old.pdf", "old text"⟩).2 ≠
      ⟨"old.pdf", "old text"⟩ ∧
    (upload_file envA saveA id (some "a.txt") ⟨"old.pdf", "old text"⟩).2 =
      ⟨"a.txt", ""⟩ := by
  decide

/-- C1 (amended): full store semantics of the upload handler.  The
missing-file 400, empty-filename 400, and a 500 raised by `file.save` leave
the store unchanged; a 500 raised during extraction updates
`uploaded_filename` only; a successful extraction always replaces both
fields — with the 200/400 status then decided by whether the extracted text
strips to non-empty — so the "no readable content" 400 does mutate the
store. -/
theorem upload_store_semantics (env : Ext) (save : String → Except String Unit)
    (sanitize : String → String) (st : DocStore) :
    (upload_file env save sanitize none st =
       (⟨400, [("message", "No file uploaded")]⟩, st)) ∧
    (upload_file env save sanitize (some "") st =
       (⟨400, [("message", "No selected file")]⟩, st)) ∧
    (∀ name e, name ≠ "" → save ("upload/" ++ sanitize name) = .error e →
       upload_file env save sanitize (some name) st =
         (⟨500, [("message", "File upload failed"), ("error", e)]⟩, st)) ∧
    (∀ name e, name ≠ "" → save ("upload/" ++ sanitize name) = .ok () →
       extract_text env ("upload/" ++ sanitize name) = .error e →
       upload_file env save sanitize (some name) st =
         (⟨500, [("message", "File upload failed"), ("error", e)]⟩,
          { st with uploaded_filename := sanitize name })) ∧
    (∀ name txt, name ≠ "" → save ("upload/" ++ sanitize name) = .ok () →
       extract_text env ("upload/" ++ sanitize name) = .ok txt →
       (upload_file env save sanitize (some name) st).2 = ⟨sanitize name, txt⟩ ∧
       (upload_file env save sanitize (some name) st).1.status =
         if pyStrip txt = "" then 400 else 200) := by
  refine ⟨rfl, rfl, ?_, ?_, ?_⟩
  · intro name e hname hsave
    simp [upload_file, hname, hsave]
  · intro name e hname hsave hext
    simp [upload_file, hname, hsave, hext]
  · intro name txt hname hsave hext
    by_cases ht : pyStrip txt = "" <;>
      simp [upload_file, hname, hsave, hext, ht]

/-- Witness for `upload_store_semantics`: concrete run of the final conjunct
on the unsupported-extension upload `a.txt` over a non-empty prior store. -/
theorem upload_store_semantics_witness :
    ("a.txt" : String) ≠ "" ∧
    saveA ("upload/" ++ id "a.txt") = .ok () ∧
    extract_text envA ("upload/" ++ id "a.txt") = .ok "" ∧
    (upload_file envA saveA id (some "a.txt") ⟨"old.pdf", "old text"⟩).2 =
      ⟨id "a.txt", ""⟩ ∧
    (upload_file envA saveA id (some "a.txt") ⟨"old.pdf", "old text"⟩).1.status =
      if pyStrip "" = "" then 400 else 200 := by
  refine ⟨by decide, rfl, rfl, ?_⟩
  exact (upload_store_semantics envA saveA id ⟨"old.pdf", "old text"⟩).2.2.2.2
    "a.txt" "" (by decide) rfl rfl

/-- C2 (counterexample): the claim that Ask returns 400 whenever no upload has
returned 200 is false.  Uploading a PDF whose single page has an empty text
layer returns 400 ("no readable content") but stores `document_text = "\n"`,
a non-empty (whitespace-only) string; `if not document_text` is then false, so
a following Ask proceeds and returns 200. -/
theorem ask_after_failed_upload_not_400 :
    (upload_file envA saveA id (some "a.pdf") initStore).1.status = 400 ∧
    (upload_file envA saveA id (some "a.pdf") initStore).2.document_text = "\n" ∧
    (ask_question qaA (some "hi")
      (upload_file envA saveA id (some "a.pdf") initStore).2).1.status = 200 := by
  decide

/-- C2 (amended): Ask returns 400 with the "no document" message exactly when
the stored `document_text` is the empty string (in particular at process
start, before any upload), regardless of the question content and of the QA
function.  (An upload that returned 400 can nevertheless have stored a
non-empty whitespace-only text, after which Ask no longer takes this
branch.) -/
theorem ask_requires_nonempty_store (qa : String → String → String)
    (req : Option String) (st : DocStore) (h : st.document_text = "") :
    ask_question qa req st = (⟨400, [("message", "No document analyzed yet")]⟩, st) := by
  simp [ask_question, h]

/-- Witness for `ask_requires_nonempty_store`: the initial store is empty and
Ask on it returns the 400 "no document" response. -/
theorem ask_requires_nonempty_store_witness :
    initStore.document_text = "" ∧
    ask_question qaA (some "What is the revenue?") initStore =
      (⟨400, [("message", "No document analyzed yet")]⟩, initStore) :=
  ⟨rfl, ask_requires_nonempty_store qaA (some "What is the revenue?") initStore rfl⟩

/-- C3: when a `.csv` (resp. `.xlsx`/`.xls`) upload's tabular parse raises,
the extractor returns the error-message string instead of raising, the
upload handler returns 200 "File uploaded successfully", the error message
becomes the stored `document_text`, and subsequent Analyze returns 200 on it
and Ask hands it to the QA function as the document context. -/
theorem tabular_error_becomes_document (env : Ext) (save : String → Except String Unit)
    (sanitize : String → String) (st : DocStore) (name e errmsg : String)
    (qa : String → String → String) (q : String)
    (hname : name ≠ "")
    (hsave : save ("upload/" ++ sanitize name) = .ok ())
    (hq : pyStrip q ≠ "")
    (hcase :
      (pyEndswith ("upload/" ++ sanitize name) ".csv" = true ∧
       env.csv ("upload/" ++ sanitize name) = .error e ∧
       errmsg = "Error reading CSV: " ++ e) ∨
      ((pyEndswith ("upload/" ++ sanitize name) ".xlsx" = true ∨
        pyEndswith ("upload/" ++ sanitize name) ".xls" = true) ∧
       env.excel ("upload/" ++ sanitize name) = .error e ∧
       errmsg = "Error reading Excel file: " ++ e)) :
    upload_file env save sanitize (some name) st =
      (⟨200, [("message", "File uploaded successfully"), ("redirect", "process.html")]⟩,
       ⟨sanitize name, errmsg⟩) ∧
    (process_file ⟨sanitize name, errmsg⟩).1.status = 200 ∧
    ask_question qa (some q) ⟨sanitize name, errmsg⟩ =
      (⟨200, [("question", pyStrip q), ("answer", qa (pyStrip q) errmsg)]⟩,
       ⟨sanitize name, errmsg⟩) := by
  have hext : extract_text env ("upload/" ++ sanitize name) = .ok errmsg := by
    rcases hcase with ⟨h1, h2, rfl⟩ | ⟨h1, h2, rfl⟩
    · have hpdf : pyEndswith ("upload/" ++ sanitize name) ".pdf" = false :=
        not_endswith h1 (by decide) (by decide)
      have hdocx : pyEndswith ("upload/" ++ sanitize name) ".docx" = false :=
        not_endswith h1 (by decide) (by decide)
      simp [extract_text, hpdf, hdocx, h1, extract_text_from_csv, h2]
    · rcases h1 with h1 | h1
      · have hpdf : pyEndswith ("upload/" ++ sanitize name) ".pdf" = false :=
          not_endswith h1 (by decide) (by decide)
        have hdocx : pyEndswith ("upload/" ++ sanitize name) ".docx" = false :=
          not_endswith h1 (by decide) (by decide)
        have hcsv : pyEndswith ("upload/" ++ sanitize name) ".csv" = false :=
          not_endswith h1 (by decide) (by decide)
        simp [extract_text, hpdf, hdocx, hcsv, h1, extract_text_from_excel, h2]
      · have hpdf : pyEndswith ("upload/" ++ sanitize name) ".pdf" = false :=
          not_endswith h1 (by decide) (by decide)
        have hdocx : pyEndswith ("upload/" ++ sanitize name) ".docx" = false :=
          not_endswith h1 (by decide) (by decide)
        have hcsv : pyEndswith ("upload/" ++ sanitize name) ".csv" = false :=
          not_endswith h1 (by decide) (by decide)
        simp [extract_text, hpdf, hdocx, hcsv, h1, extract_text_from_excel, h2]
  have hE : 'E' ∈ errmsg.data := by
    rcases hcase with ⟨_, _, rfl⟩ | ⟨_, _, rfl⟩ <;>
    · rw [String.data_append]
      exact List.mem_append.mpr (Or.inl (by decide))
  have hstrip : pyStrip errmsg ≠ "" := pyStrip_ne_empty hE (by decide)
  have hne : errmsg ≠ "" := by
    intro hh
    rw [hh] at hE
    exact absurd hE (by decide)
  refine ⟨upload_ok_eval env save sanitize name errmsg st hname hsave hext hstrip, ?_, ?_⟩
  · simp [process_file, hne]
  · simp [ask_question, hne, hq]

/-- Witness for `tabular_error_becomes_document`: uploading `a.csv` whose
parse raises `boom` over a non-empty prior store. -/
theorem tabular_error_becomes_document_witness :
    ("a.csv" : String) ≠ "" ∧
    pyEndswith ("upload/" ++ id "a.csv") ".csv" = true ∧
    envA.csv ("upload/" ++ id "a.csv") = .error "boom" ∧
    pyStrip "hi" ≠ "" ∧
    (upload_file envA saveA id (some "a.csv") ⟨"old.pdf", "old text"⟩ =
      (⟨200, [("message", "File uploaded successfully"), ("redirect", "process.html")]⟩,
       ⟨id "a.csv", "Error reading CSV: boom"⟩) ∧
     (process_file ⟨id "a.csv", "Error reading CSV: boom"⟩).1.status = 200 ∧
     ask_question qaA (some "hi") ⟨id "a.csv", "Error reading CSV: boom"⟩ =
       (⟨200, [("question", pyStrip "hi"),
               ("answer", qaA (pyStrip "hi") "Error reading CSV: boom")]⟩,
        ⟨id "a.csv", "Error reading CSV: boom"⟩)) :=
  ⟨by decide, by decide, rfl, by decide,
   tabular_error_becomes_document envA saveA id ⟨"old.pdf", "old text"⟩ "a.csv" "boom"
     "Error reading CSV: boom" qaA "hi" (by decide) rfl (by decide)
     (Or.inl ⟨by decide, rfl, rfl⟩)⟩

/-- C4: whenever the completion call raises, `query_gpt4` returns the string
`"Error querying GPT-4: " ++ e` instead of raising, and the Ask handler
(with a stored document and a non-blank question, the only state in which it
invokes the QA client) returns status 200 with that error text in the
`answer` field — never a 500. -/
theorem qa_error_to_200 (complete : List (String × String) → Except String String) :
    (∀ question context e, complete (gpt_messages context question) = .error e →
       query_gpt4 complete question context = "Error querying GPT-4: " ++ e) ∧
    (∀ (st : DocStore) (req : Option String) (e : String),
       st.document_text ≠ "" → pyStrip (req.getD "") ≠ "" →
       complete (gpt_messages st.document_text (pyStrip (req.getD ""))) = .error e →
       ask_question (query_gpt4 complete) req st =
         (⟨200, [("question", pyStrip (req.getD "")),
                 ("answer", "Error querying GPT-4: " ++ e)]⟩, st)) := by
  constructor
  · intro q c e h
    simp [query_gpt4, h]
  · intro st req e hdoc hq h
    simp [ask_question, hdoc, hq, query_gpt4, h]

/-- Witness for `qa_error_to_200`: a completion oracle that always fails with
a network error, under a stored document and question `q`. -/
theorem qa_error_to_200_witness :
    query_gpt4 completeFail "q" "doc" = "Error querying GPT-4: network down" ∧
    ask_question (query_gpt4 completeFail) (some "q") ⟨"a.pdf", "doc"⟩ =
      (⟨200, [("question", "q"), ("answer", "Error querying GPT-4: network down")]⟩,
       ⟨"a.pdf", "doc"⟩) := by
  constructor
  · exact (qa_error_to_200 completeFail).1 "q" "doc" "network down" rfl
  · have h := (qa_error_to_200 completeFail).2 ⟨"a.pdf", "doc"⟩ (some "q") "network down"
      (by decide) (by decide) rfl
    exact h

/-- C5: the document portion of the prompt sent to the completion service is
exactly the first 2000 characters of the stored text: it equals
`context.data.take 2000`, is a prefix of the stored text of length
`min 2000 (length context)`, and is the whole text when the text has at most
2000 characters; nothing of the document beyond that prefix appears in the
messages. -/
theorem prompt_truncation (context question : String) :
    ∃ doc : String,
      gpt_messages context question =
        [("system",
          "You are Financial assistant that answers questions based on the uploaded document."),
         ("user", "Document: " ++ doc ++ "...\n\nQuestion: " ++ question)] ∧
      doc.data = context.data.take 2000 ∧
      doc.data <+: context.data ∧
      doc.data.length = min 2000 context.data.length ∧
      (context.data.length ≤ 2000 → doc = context) := by
  refine ⟨pySlice context 2000, rfl, rfl, List.take_prefix _ _, ?_, ?_⟩
  · simp [pySlice]
  · intro h
    apply String.ext
    simp [pySlice, List.take_of_length_le h]

/-- Witness for `prompt_truncation` at a concrete document and question. -/
theorem prompt_truncation_witness :
    ∃ doc : String,
      gpt_messages "abc" "q" =
        [("system",
          "You are Financial assistant that answers questions based on the uploaded document."),
         ("user", "Document: " ++ doc ++ "...\n\nQuestion: " ++ "q")] ∧
      doc.data = "abc".data.take 2000 ∧
      doc.data <+: "abc".data ∧
      doc.data.length = min 2000 "abc".data.length ∧
      ("abc".data.length ≤ 2000 → doc = "abc") :=
  prompt_truncation "abc" "q"

/-- C6: for every non-empty stored text, Analyze returns 200 whose word count
is the number of whitespace-delimited tokens of the full stored text and
whose `content` is the first 500 characters of the stored text (a length-500
prefix), and the store is returned unchanged. -/
theorem analyze_full_text (st : DocStore) (h : st.document_text ≠ "") :
    process_file st =
      (⟨200, [("message", "Analysis successful! Word count: " ++
                toString (pySplit st.document_text).length),
              ("content", pySlice st.document_text 500)]⟩, st) ∧
    (pySlice st.document_text 500).data = st.document_text.data.take 500 ∧
    (pySlice st.document_text 500).data <+: st.document_text.data := by
  refine ⟨?_, rfl, List.take_prefix _ _⟩
  simp [process_file, h]

/-- Witness for `analyze_full_text` on a concrete stored document. -/
theorem analyze_full_text_witness :
    ((⟨"a.pdf", "hello brave new world"⟩ : DocStore).document_text ≠ "") ∧
    process_file ⟨"a.pdf", "hello brave new world"⟩ =
      (⟨200, [("message", "Analysis successful! Word count: " ++
                toString (pySplit "hello brave new world").length),
              ("content", pySlice "hello brave new world" 500)]⟩,
       ⟨"a.pdf", "hello brave new world"⟩) :=
  ⟨by decide, (analyze_full_text ⟨"a.pdf", "hello brave new world"⟩ (by decide)).1⟩

/-- C7: last-write-wins.  After two sequential 200 uploads, the store holds
exactly the second upload's sanitized file name and extracted text; the final
store is the same from any prior store state (no dependence on the first
upload), and a subsequent Analyze reflects only the second document. -/
theorem second_upload_wins (env1 env2 : Ext) (save1 save2 : String → Except String Unit)
    (san1 san2 : String → String) (req1 req2 : Option String) (st0 : DocStore)
    (h1 : (upload_file env1 save1 san1 req1 st0).1.status = 200)
    (h2 : (upload_file env2 save2 san2 req2
            ((upload_file env1 save1 san1 req1 st0).2)).1.status = 200) :
    ∃ name2 txt2, req2 = some name2 ∧
      extract_text env2 ("upload/" ++ san2 name2) = .ok txt2 ∧
      (upload_file env2 save2 san2 req2 ((upload_file env1 save1 san1 req1 st0).2)).2 =
        ⟨san2 name2, txt2⟩ ∧
      (∀ st' : DocStore, (upload_file env2 save2 san2 req2 st').2 = ⟨san2 name2, txt2⟩) ∧
      process_file ⟨san2 name2, txt2⟩ =
        (⟨200, [("message", "Analysis successful! Word count: " ++
                  toString (pySplit txt2).length),
                ("content", pySlice txt2 500)]⟩, ⟨san2 name2, txt2⟩) := by
  obtain ⟨name2, txt2, hreq, hname, hsave, hext, hstrip, hst⟩ :=
    upload_200_inv env2 save2 san2 req2 _ h2
  subst hreq
  refine ⟨name2, txt2, rfl, hext, hst, ?_, ?_⟩
  · intro st'
    rw [upload_ok_eval env2 save2 san2 name2 txt2 st' hname hsave hext hstrip]
  · have hne : txt2 ≠ "" := fun hh => hstrip (by rw [hh]; rfl)
    simp [process_file, hne]

/-- Witness for `second_upload_wins`: two concrete 200 uploads (`a.csv`, then
`b.csv` under different extraction oracles). -/
theorem second_upload_wins_witness :
    (upload_file envA saveA id (some "a.csv") initStore).1.status = 200 ∧
    (upload_file envB saveA id (some "b.csv")
      ((upload_file envA saveA id (some "a.csv") initStore).2)).1.status = 200 ∧
    (∃ name2 txt2, (some "b.csv" : Option String) = some name2 ∧
      extract_text envB ("upload/" ++ id name2) = .ok txt2 ∧
      (upload_file envB saveA id (some "b.csv")
        ((upload_file envA saveA id (some "a.csv") initStore).2)).2 =
        ⟨id name2, txt2⟩ ∧
      (∀ st' : DocStore,
        (upload_file envB saveA id (some "b.csv") st').2 = ⟨id name2, txt2⟩) ∧
      process_file ⟨id name2, txt2⟩ =
        (⟨200, [("message", "Analysis successful! Word count: " ++
                  toString (pySplit txt2).length),
                ("content", pySlice txt2 500)]⟩, ⟨id name2, txt2⟩)) :=
  ⟨by decide, by decide,
   second_upload_wins envA envB saveA saveA id id (some "a.csv") (some "b.csv") initStore
     (by decide) (by decide)⟩

/-- C8: after a successful upload (non-empty stored text), an Ask whose
question is absent, empty, or whitespace-only after stripping returns 400
with the "Please ask a question" message, and the result is the same for
every QA function — the QA client is not consulted. -/
theorem ask_blank_question_400 (qa qa2 : String → String → String)
    (req : Option String) (st : DocStore)
    (hdoc : st.document_text ≠ "") (hblank : pyStrip (req.getD "") = "") :
    ask_question qa req st = (⟨400, [("message", "Please ask a question")]⟩, st) ∧
    ask_question qa req st = ask_question qa2 req st := by
  constructor <;> simp [ask_question, hdoc, hblank]

/-- Witness for `ask_blank_question_400`: the whitespace-only question
`"   "` against a stored document, under two different QA functions. -/
theorem ask_blank_question_400_witness :
    ((⟨"a.pdf", "doc"⟩ : DocStore).document_text ≠ "") ∧
    pyStrip ((some "   ").getD "") = "" ∧
    ask_question qaA (some "   ") ⟨"a.pdf", "doc"⟩ =
      (⟨400, [("message", "Please ask a question")]⟩, ⟨"a.pdf", "doc"⟩) ∧
    ask_question qaA (some "   ") ⟨"a.pdf", "doc"⟩ =
      ask_question qaB (some "   ") ⟨"a.pdf", "doc"⟩ :=
  ⟨by decide, by decide,
   (ask_blank_question_400 qaA qaB (some "   ") ⟨"a.pdf", "doc"⟩ (by decide) (by decide)).1,
   (ask_blank_question_400 qaA qaB (some "   ") ⟨"a.pdf", "doc"⟩ (by decide) (by decide)).2⟩

/-- C9: the CSV and Excel extractors convert a raised parse exception into
the human-readable strings `"Error reading CSV: " ++ e` /
`"Error reading Excel file: " ++ e` (never empty, never propagating the
exception — their return type is `String`, not `Except`), and on parse
success return the parsed table rendered by `to_string(index=False)`, the
whitespace-aligned rendering without the row index column. -/
theorem tabular_error_policy (env : Ext) (p : String) :
    (∀ e, env.csv p = .error e →
       extract_text_from_csv env p = "Error reading CSV: " ++ e ∧
       extract_text_from_csv env p ≠ "") ∧
    (∀ df, env.csv p = .ok df →
       extract_text_from_csv env p = env.to_string_noindex df) ∧
    (∀ e, env.excel p = .error e →
       extract_text_from_excel env p = "Error reading Excel file: " ++ e ∧
       extract_text_from_excel env p ≠ "") ∧
    (∀ df, env.excel p = .ok df →
       extract_text_from_excel env p = env.to_string_noindex df) := by
  refine ⟨fun e h => ?_, fun df h => ?_, fun e h => ?_, fun df h => ?_⟩
  · rw [extract_text_from_csv, h]
    exact ⟨rfl, ne_empty_append e (by decide)⟩
  · rw [extract_text_from_csv, h]
  · rw [extract_text_from_excel, h]
    exact ⟨rfl, ne_empty_append e (by decide)⟩
  · rw [extract_text_from_excel, h]

/-- Witness for `tabular_error_policy`: CSV parse raising `boom`. -/
theorem tabular_error_policy_witness :
    envA.csv "upload/a.csv" = .error "boom" ∧
    extract_text_from_csv envA "upload/a.csv" = "Error reading CSV: boom" ∧
    extract_text_from_csv envA "upload/a.csv" ≠ "" :=
  ⟨rfl, (tabular_error_policy envA "upload/a.csv").1 "boom" rfl⟩

/-- C10: extension dispatch is a case-sensitive suffix match, so a sanitized
file name ending in any non-lowercase case variant of a supported extension
(its `lower` image is `.pdf`, `.docx`, `.csv`, `.xlsx` or `.xls` but the
variant differs from it) matches no branch of `extract_text`: extraction
returns `""` and the upload returns 400 "no readable content" (storing the
new file name with empty text). -/
theorem case_sensitive_dispatch (env : Ext) (save : String → Except String Unit)
    (sanitize : String → String) (name s e : String) (st : DocStore)
    (he : e = ".pdf" ∨ e = ".docx" ∨ e = ".csv" ∨ e = ".xlsx" ∨ e = ".xls")
    (hlow : pyLower s = e) (hne : s ≠ e)
    (hsuf : pyEndswith (sanitize name) s = true)
    (hname : name ≠ "")
    (hsave : save ("upload/" ++ sanitize name) = .ok ()) :
    extract_text env ("upload/" ++ sanitize name) = .ok "" ∧
    upload_file env save sanitize (some name) st =
      (⟨400, [("message", "File uploaded but no readable content found")]⟩,
       ⟨sanitize name, ""⟩) := by
  have hs : s.data <:+ ("upload/" ++ sanitize name).data := by
    rw [String.data_append]
    exact (pyEndswith_iff.mp hsuf).trans (List.suffix_append _ _)
  have hext : extract_text env ("upload/" ++ sanitize name) = .ok "" := by
    rcases he with rfl | rfl | rfl | rfl | rfl <;>
    · have h1 := pyEndswith_eq_false
        (lower_variant_no_match ".pdf" hlow hne (by decide) (by decide) (by decide) hs)
      have h2 := pyEndswith_eq_false
        (lower_variant_no_match ".docx" hlow hne (by decide) (by decide) (by decide) hs)
      have h3 := pyEndswith_eq_false
        (lower_variant_no_match ".csv" hlow hne (by decide) (by decide) (by decide) hs)
      have h4 := pyEndswith_eq_false
        (lower_variant_no_match ".xlsx" hlow hne (by decide) (by decide) (by decide) hs)
      have h5 := pyEndswith_eq_false
        (lower_variant_no_match ".xls" hlow hne (by decide) (by decide) (by decide) hs)
      simp [extract_text, h1, h2, h3, h4, h5]
  refine ⟨hext, ?_⟩
  simp [upload_file, hname, hsave, hext, show pyStrip "" = "" from rfl]

/-- Witness for `case_sensitive_dispatch`: the uppercase variant `.PDF` on
file `Report.PDF` over a non-empty prior store. -/
theorem case_sensitive_dispatch_witness :
    ((".pdf" : String) = ".pdf" ∨ (".pdf" : String) = ".docx" ∨
     (".pdf" : String) = ".csv" ∨ (".pdf" : String) = ".xlsx" ∨
     (".pdf" : String) = ".xls") ∧
    pyLower ".PDF" = ".pdf" ∧ (".PDF" : String) ≠ ".pdf" ∧
    pyEndswith (id "Report.PDF") ".PDF" = true ∧
    ("Report.PDF" : String) ≠ "" ∧
    (extract_text envA ("upload/" ++ id "Report.PDF") = .ok "" ∧
     upload_file envA saveA id (some "Report.PDF") ⟨"old.pdf", "old text"⟩ =
       (⟨400, [("message", "File uploaded but no readable content found")]⟩,
        ⟨id "Report.PDF", ""⟩)) :=
  ⟨Or.inl rfl, by decide, by decide, by decide, by decide,
   case_sensitive_dispatch envA saveA id "Report.PDF" ".PDF" ".pdf"
     ⟨"old.pdf", "old text"⟩ (Or.inl rfl) (by decide) (by decide) (by decide)
     (by decide) rfl⟩

end DocChat
